import Mathlib

/-!
Verification of the notification-rule HTTP layer (src/http/notification_rule.go).

The Go source is shallowly embedded: every collaborator service (rule store,
task service, label service, endpoint service) is a record of pure functions
returning `Except Err`, handlers are pure functions from a request and an
environment to an outcome, and the two statically-reachable nil-pointer
dereferences in the source are made explicit as a `panic` outcome.
-/

set_option autoImplicit false

namespace InfluxdbHttp

/-! ## Identifiers and errors -/

/-- Opaque fixed-width identifier (influxdb.ID). -/
abbrev ID := Nat

/-- Error-code taxonomy of the structured error type (influxdb.Error.Code). -/
inductive ErrCode where
  | invalid
  | notFound
  | unauthorized
  | internal
  | other
deriving DecidableEq, Repr

/-- Structured error (influxdb.Error): machine-readable code plus message. -/
structure Err where
  code : ErrCode
  msg : String
deriving DecidableEq, Repr

/-- Value of a hexadecimal digit character, if it is one. -/
def hexDigitVal (c : Char) : Option Nat :=
  if c.isDigit then some (c.toNat - 48)
  else if 97 ≤ c.toNat ∧ c.toNat ≤ 102 then some (c.toNat - 87)
  else if 65 ≤ c.toNat ∧ c.toNat ≤ 70 then some (c.toNat - 55)
  else none

/-- Parse a string of hexadecimal digits, failing on any non-hex character. -/
def parseHex (s : String) : Option Nat :=
  s.data.foldl (fun acc c => acc.bind fun n => (hexDigitVal c).map fun d => n * 16 + d) (some 0)

/-- Modelled from the spec: influxdb.ID.DecodeFromString / influxdb.IDFromString
(not under src/). A path or query identifier is a fixed-width (16 hex chars)
opaque identifier; a malformed one yields an invalid-argument error. -/
def decodeIDFromString (s : String) : Except Err ID :=
  if s.length ≠ 16 then
    .error { code := ErrCode.invalid, msg := "id must have a length of 16 bytes" }
  else
    match parseHex s with
    | none => .error { code := ErrCode.invalid, msg := "invalid ID" }
    | some n => .ok n

/-- Hexadecimal rendering of an identifier (influxdb.ID.String). -/
def idToString (i : ID) : String :=
  String.mk (Nat.toDigits 16 i)

/-- Boolean test for the error case of an `Except`. -/
def isErrE {ε α : Type} : Except ε α → Bool
  | .error _ => true
  | .ok _ => false

/-! ## Domain data model -/

/-- Rule status enum (influxdb.Status). -/
inductive Status where
  | active
  | inactive
deriving DecidableEq, Repr

/-- Modelled from the spec: the NotificationRule domain entity (§3; the
concrete rule variants live in the notification/rule package, not under src/).
`privateData` stands for the endpoint-specific secret fields that must never
be echoed back to a client. -/
structure NotificationRule where
  id : ID := 0
  orgID : ID := 0
  ownerID : ID := 0
  taskID : ID := 0
  endpointID : ID := 0
  name : String := ""
  description : String := ""
  privateData : Option String := none
deriving DecidableEq, Repr

/-- Modelled from the spec: NotificationRule.ClearPrivateData clears the
endpoint-specific secret fields (§3: "cleared before every outbound response"). -/
def clearPrivateData (nr : NotificationRule) : NotificationRule :=
  { nr with privateData := none }

/-- Modelled from the spec: the task-run snapshot (influxdb.Task fields read by
this layer: status, latest timestamps, last-run status/error). -/
structure Task where
  status : String := ""
  latestCompleted : Nat := 0
  latestScheduled : Nat := 0
  lastRunStatus : String := ""
  lastRunError : String := ""
deriving DecidableEq, Repr

/-- Modelled from the spec: a label entity (influxdb.Label). -/
structure Label where
  id : ID := 0
  name : String := ""
deriving DecidableEq, Repr

/-- Resource-type tag of a label or user-resource mapping. Only the two values
this file mentions are distinguished. -/
inductive ResourceType where
  | notificationRule
  | telegrafs
  | other
deriving DecidableEq, Repr

/-- Modelled from the spec: the (labelID, resourceID, resourceType) junction
record (influxdb.LabelMapping). -/
structure LabelMapping where
  labelID : ID
  resourceID : ID
  resourceType : ResourceType
deriving DecidableEq, Repr

/-- A key/value tag predicate (influxdb.Tag). -/
structure Tag where
  key : String
  value : String
deriving DecidableEq, Repr

/-- Modelled from the spec: influxdb.NewTag parses a "key:value" string;
a malformed pair yields no tag. -/
def parseTag (s : String) : Option Tag :=
  match s.splitOn ":" with
  | [k, v] => if k = "" ∨ v = "" then none else some { key := k, value := v }
  | _ => none

/-- Modelled from the spec: influxdb.UserResourceMappingFilter. -/
structure UserResourceMappingFilter where
  resourceType : ResourceType := ResourceType.other
  resourceID : Option ID := none
  userID : Option ID := none
deriving DecidableEq, Repr

/-- Modelled from the spec: influxdb.NotificationRuleFilter. `organization` is
a pointer field in the source (§9: "possibly-nil pointer"), so it is an
`Option` whose zero value is `none`. -/
structure NotificationRuleFilter where
  orgID : Option ID := none
  organization : Option String := none
  userResourceMappingFilter : UserResourceMappingFilter := {}
  tags : List Tag := []
deriving DecidableEq, Repr

/-- Modelled from the spec: pagination options (influxdb.FindOptions). -/
structure FindOptions where
  limit : Nat := 20
deriving DecidableEq, Repr

/-- A rule definition paired with its initial status
(influxdb.NotificationRuleCreate). -/
structure NotificationRuleCreate where
  rule : NotificationRule
  status : Status
deriving DecidableEq, Repr

/-- Modelled from the spec: the sparse patch changeset
(influxdb.NotificationRuleUpdate). -/
structure NotificationRuleUpdate where
  name : Option String := none
  description : Option String := none
  status : Option Status := none
deriving DecidableEq, Repr

/-- Modelled from the spec: NotificationRuleUpdate.Valid validates the
changeset structurally (a set name may not be empty). -/
def updValid (upd : NotificationRuleUpdate) : Except Err Unit :=
  if upd.name = some "" then
    .error { code := ErrCode.invalid, msg := "notification rule name can not be empty" }
  else
    .ok ()

/-- Modelled from the spec: a delivery-endpoint entity, opaque to this layer. -/
structure Endpoint where
  id : ID := 0
deriving DecidableEq, Repr

/-! ## Requests and collaborator environment -/

/-- List-query parameters (Go's url.Values.Get returns "" for an absent key,
so absent parameters are the empty string). -/
structure Query where
  orgID : String := ""
  org : String := ""
  tags : List String := []
  resourceID : String := ""
  userID : String := ""
  limit : String := ""
deriving DecidableEq, Repr

/-- The parsed pieces of a create/replace request body. `rule = none` models a
body rule.UnmarshalJSON rejects; `status = none` models an absent or null
`status` field (statusDecode holds a pointer). -/
structure Body where
  rule : Option NotificationRule := none
  status : Option Status := none
  labels : List String := []
deriving DecidableEq, Repr

/-- An inbound request: path `:id` parameter ("" when missing, as
httprouter.Params.ByName returns), query parameters, parsed bodies, and the
authenticated principal (`none` models a pctx.GetAuthorizer failure). -/
structure Request where
  pathID : String := ""
  query : Query := {}
  body : Body := {}
  patchBody : Option NotificationRuleUpdate := none
  auth : Option ID := none
deriving DecidableEq, Repr

/-- The notification-rule store contract consumed by the handlers. `create`
returns the stored rule with its assigned identity (the Go call mutates the
rule in place). -/
structure Store where
  findByID : ID → Except Err NotificationRule
  find : NotificationRuleFilter → FindOptions → Except Err (List NotificationRule × Nat)
  create : NotificationRuleCreate → ID → Except Err NotificationRule
  update : ID → NotificationRuleCreate → ID → Except Err NotificationRule
  patch : ID → NotificationRuleUpdate → Except Err NotificationRule
  delete : ID → Except Err Unit

/-- The collaborator environment of the handler: rule store, task service,
label service and endpoint service, plus the per-rule query renderer
(NotificationRule.GenerateFlux, rule-variant specific). -/
structure Env where
  store : Store
  findTaskByID : ID → Except Err Task
  findResourceLabels : ID → Except Err (List Label)
  findLabelByID : ID → Except Err Label
  createLabelMapping : LabelMapping → Except Err Unit
  findEndpointByID : ID → Except Err Endpoint
  generateFlux : NotificationRule → Endpoint → Except Err String

/-- Modelled from the spec: the error pctx.GetAuthorizer reports when the
request carries no authenticated principal (§7: unauthorized). -/
def unauthorizedErr : Err :=
  { code := ErrCode.unauthorized, msg := "authorizer not found on context" }

/-! ## Decode functions -/

/-- Outcome of a decode step that can hit a nil-pointer dereference (`panic`)
in addition to failing with a structured error. -/
inductive DecodeResult (α : Type) where
  | panic : DecodeResult α
  | err : Err → DecodeResult α
  | ok : α → DecodeResult α
deriving DecidableEq, Repr

/-- decodeGetNotificationRuleRequest: the `:id` path parameter must be present
and decode as an identifier. -/
def decodeGetNotificationRuleRequest (pathID : String) : Except Err ID :=
  if pathID = "" then
    .error { code := ErrCode.invalid, msg := "url missing id" }
  else
    decodeIDFromString pathID

/-- Modelled from the spec: decodeFindOptions, the shared pagination helper
(not under src/); its decode errors fail the call (§4.1). -/
def decodeFindOptions (q : Query) : Except Err FindOptions :=
  if q.limit = "" then .ok {}
  else
    match q.limit.toNat? with
    | some n => .ok { limit := n }
    | none => .error { code := ErrCode.invalid, msg := "invalid limit" }

/-- decodeUserResourceMappingFilter: optional resourceID / userID query
identifiers scoped to a resource type. -/
def decodeUserResourceMappingFilter (q : Query) (typ : ResourceType) :
    Except Err UserResourceMappingFilter := do
  let rid ← (if q.resourceID = "" then Except.ok none
             else Except.map some (decodeIDFromString q.resourceID))
  let uid ← (if q.userID = "" then Except.ok none
             else Except.map some (decodeIDFromString q.userID))
  Except.ok { resourceType := typ, resourceID := rid, userID := uid }

/-- decodeNotificationRuleFilter: builds the list filter. The org-by-name
branch writes through the filter's nil `Organization` pointer, which is the
`panic` outcome. -/
def decodeNotificationRuleFilter (q : Query) :
    DecodeResult (NotificationRuleFilter × FindOptions) :=
  let f : NotificationRuleFilter := {}
  let f := match decodeUserResourceMappingFilter q ResourceType.notificationRule with
    | .ok urm => { f with userResourceMappingFilter := urm }
    | .error _ => f
  match decodeFindOptions q with
  | .error e => .err e
  | .ok opts =>
    let step : DecodeResult NotificationRuleFilter :=
      if q.orgID ≠ "" then
        match decodeIDFromString q.orgID with
        | .error _ => .err { code := ErrCode.invalid, msg := "orgID is invalid" }
        | .ok oid => .ok { f with orgID := some oid }
      else if q.org ≠ "" then
        match f.organization with
        | none => .panic
        | some _ => .ok { f with organization := some q.org }
      else .ok f
    match step with
    | .panic => .panic
    | .err e => .err e
    | .ok f2 => .ok ({ f2 with tags := f2.tags ++ q.tags.filterMap parseTag }, opts)

/-- The decoded create request: rule-plus-status and candidate label IDs. -/
structure PostNotificationRuleRequest where
  nrc : NotificationRuleCreate
  labels : List String
deriving DecidableEq, Repr

/-- decodePostNotificationRuleRequest: rule definition, status, labels. The
`Status: *sts.Status` construction dereferences the status pointer with no nil
check, so an absent/null status is the `panic` outcome. -/
def decodePostNotificationRuleRequest (body : Body) :
    DecodeResult PostNotificationRuleRequest :=
  match body.rule with
  | none => .err { code := ErrCode.invalid, msg := "unable to unmarshal notification rule" }
  | some nr =>
    match body.status with
    | none => .panic
    | some st => .ok { nrc := { rule := nr, status := st }, labels := body.labels }

/-- decodePutNotificationRuleRequest: full rule body, then the path identifier
is bound onto the rule, then the status pointer is dereferenced (nil-unsafe,
as in the create decoder). -/
def decodePutNotificationRuleRequest (body : Body) (pathID : String) :
    DecodeResult NotificationRuleCreate :=
  match body.rule with
  | none => .err { code := ErrCode.invalid, msg := "unable to unmarshal notification rule" }
  | some nr =>
    if pathID = "" then .err { code := ErrCode.invalid, msg := "url missing id" }
    else
      match decodeIDFromString pathID with
      | .error e => .err e
      | .ok i =>
        match body.status with
        | none => .panic
        | some st => .ok { rule := { nr with id := i }, status := st }

/-- The decoded patch request: target identifier plus validated changeset. -/
structure PatchNotificationRuleRequest where
  id : ID
  upd : NotificationRuleUpdate
deriving DecidableEq, Repr

/-- decodePatchNotificationRuleRequest: path identifier, then the changeset is
decoded (`none` models a JSON decode error) and validated. -/
def decodePatchNotificationRuleRequest (pathID : String)
    (body : Option NotificationRuleUpdate) : Except Err PatchNotificationRuleRequest :=
  if pathID = "" then
    .error { code := ErrCode.invalid, msg := "url missing id" }
  else
    match decodeIDFromString pathID with
    | .error e => .error e
    | .ok i =>
      match body with
      | none => .error { code := ErrCode.invalid, msg := "invalid patch body" }
      | some upd =>
        match updValid upd with
        | .error e => .error { code := ErrCode.invalid, msg := e.msg }
        | .ok _ => .ok { id := i, upd := upd }

/-! ## Response composition -/

/-- Hyperlinks of a single-rule response, rendered from the rule ID with fixed
path templates. -/
structure NotificationRuleLinks where
  self : String
  labels : String
  members : String
  owners : String
  query : String
deriving DecidableEq, Repr

/-- The single-item response document: domain rule (private data cleared),
resolved labels, links, and the flattened task-run snapshot fields. -/
structure NotificationRuleResponse where
  rule : NotificationRule
  labels : List Label
  links : NotificationRuleLinks
  status : String
  latestCompleted : Nat
  latestScheduled : Nat
  lastRunStatus : String
  lastRunError : String
deriving DecidableEq, Repr

/-- The field assembly of newNotificationRuleResponse once the task snapshot
is at hand: links from the rule ID, labels copied in order, task fields
flattened. -/
def mkRuleResponse (nr : NotificationRule) (labels : List Label) (t : Task) :
    NotificationRuleResponse :=
  { rule := nr
    labels := labels
    links :=
      { self := "/api/v2/notificationRules/" ++ idToString nr.id
        labels := "/api/v2/notificationRules/" ++ idToString nr.id ++ "/labels"
        members := "/api/v2/notificationRules/" ++ idToString nr.id ++ "/members"
        owners := "/api/v2/notificationRules/" ++ idToString nr.id ++ "/owners"
        query := "/api/v2/notificationRules/" ++ idToString nr.id ++ "/query" }
    status := t.status
    latestCompleted := t.latestCompleted
    latestScheduled := t.latestScheduled
    lastRunStatus := t.lastRunStatus
    lastRunError := t.lastRunError }

/-- newNotificationRuleResponse: fetch the task snapshot (mandatory — its
failure is the composition's failure), clear the rule's private data, and
assemble the document. -/
def newNotificationRuleResponse (env : Env) (nr : NotificationRule)
    (labels : List Label) : Except Err NotificationRuleResponse :=
  match env.findTaskByID nr.taskID with
  | .error e => .error e
  | .ok t => .ok (mkRuleResponse (clearPrivateData nr) labels t)

/-- Modelled from the spec: paging links rendered by the shared newPagingLinks
helper (not under src/) from the base path, the input paging options, the
filter and the returned item count; the claims do not constrain its content. -/
structure PagingLinks where
  self : String
deriving DecidableEq, Repr

/-- Modelled from the spec: newPagingLinks (shared helper, not under src/). -/
def newPagingLinks (basePath : String) (opts : FindOptions)
    (f : NotificationRuleFilter) (count : Nat) : PagingLinks :=
  { self := basePath ++ "?limit=" ++ toString opts.limit ++ "&count=" ++ toString count ++
      (match f.orgID with
       | none => ""
       | some oid => "&orgID=" ++ idToString oid) }

/-- The list response wrapper: the Go struct carries the item array under the
JSON key "notificationRules" and the paging links under "links". -/
structure NotificationRulesResponse where
  notificationRules : List NotificationRuleResponse
  links : PagingLinks
deriving DecidableEq, Repr

/-- The loop body of newNotificationRulesResponse: per rule, the label fetch's
error is discarded (a failed fetch leaves a nil/empty label list) and a failed
single-item composition is skipped with continue. -/
def listLoop (env : Env) : List NotificationRule → List NotificationRuleResponse
  | [] => []
  | nr :: rest =>
    let labels := match env.findResourceLabels nr.id with
      | .error _ => []
      | .ok ls => ls
    match newNotificationRuleResponse env nr labels with
    | .error _ => listLoop env rest
    | .ok res => res :: listLoop env rest

/-- newNotificationRulesResponse: paging links from the store's returned rule
count, then the per-rule composition loop. The Go function's error result is
always nil. -/
def newNotificationRulesResponse (env : Env) (nrs : List NotificationRule)
    (f : NotificationRuleFilter) (opts : FindOptions) : NotificationRulesResponse :=
  { notificationRules := listLoop env nrs
    links := newPagingLinks "/api/v2/notificationRules" opts f nrs.length }

/-- The list-composition behaviour on one rule, stated independently of the
loop: default the labels to empty on a failed fetch, then keep the item only
if single-item composition succeeds. -/
def composeListItem (env : Env) (nr : NotificationRule) :
    Option NotificationRuleResponse :=
  (newNotificationRuleResponse env nr
    ((env.findResourceLabels nr.id).toOption.getD [])).toOption

/-! ## Label attachment on create -/

/-- One iteration of the mapNewNotificationRuleLabels loop on a candidate
label-ID string: decode (skip on failure), resolve (skip if not found), create
the mapping (skip if it fails), else keep the label. The second component
records the mapping passed to CreateLabelMapping, if the loop got that far. -/
def attachOne (env : Env) (nrc : NotificationRuleCreate) (sid : String) :
    Option Label × List LabelMapping :=
  match decodeIDFromString sid with
  | .error _ => (none, [])
  | .ok lid =>
    match env.findLabelByID lid with
    | .error _ => (none, [])
    | .ok label =>
      let mapping : LabelMapping :=
        { labelID := label.id
          resourceID := nrc.rule.id
          resourceType := ResourceType.notificationRule }
      match env.createLabelMapping mapping with
      | .error _ => (none, [mapping])
      | .ok _ => (some label, [mapping])

/-- mapNewNotificationRuleLabels: best-effort attachment over the candidate
list, in order; returns the successfully attached labels and (as ghost
instrumentation) every mapping passed to CreateLabelMapping. -/
def mapNewNotificationRuleLabels (env : Env) (nrc : NotificationRuleCreate) :
    List String → List Label × List LabelMapping
  | [] => ([], [])
  | sid :: rest =>
    let this := attachOne env nrc sid
    let others := mapNewNotificationRuleLabels env nrc rest
    ((this.1).toList ++ others.1, this.2 ++ others.2)

/-- Does a candidate label-ID string decode, resolve to an existing label, and
have its mapping created successfully? (The success predicate of §4.2, stated
without reference to the loop.) -/
def candidateSucceeds (env : Env) (nrc : NotificationRuleCreate) (sid : String) : Bool :=
  match decodeIDFromString sid with
  | .error _ => false
  | .ok lid =>
    match env.findLabelByID lid with
    | .error _ => false
    | .ok label =>
      match env.createLabelMapping
        { labelID := label.id
          resourceID := nrc.rule.id
          resourceType := ResourceType.notificationRule } with
      | .error _ => false
      | .ok _ => true

/-! ## Handlers -/

/-- Result of running a handler: a nil-pointer dereference, a structured error
handed to HandleHTTPError, or a success with its HTTP status code and body. -/
inductive HResult (α : Type) where
  | panic : HResult α
  | failure : Err → HResult α
  | success : Nat → α → HResult α
deriving DecidableEq, Repr

/-- A handler outcome together with whether the notification-rule store was
called. -/
structure HandlerOutcome (α : Type) where
  result : HResult α
  storeCalled : Bool
deriving DecidableEq, Repr

/-- handleGetNotificationRule: decode id → fetch rule → fetch labels
(propagating failure) → compose → 200. -/
def handleGetNotificationRule (req : Request) (env : Env) :
    HandlerOutcome NotificationRuleResponse :=
  match decodeGetNotificationRuleRequest req.pathID with
  | .error e => ⟨.failure e, false⟩
  | .ok i =>
    match env.store.findByID i with
    | .error e => ⟨.failure e, true⟩
    | .ok nr =>
      match env.findResourceLabels nr.id with
      | .error e => ⟨.failure e, true⟩
      | .ok labels =>
        match newNotificationRuleResponse env nr labels with
        | .error e => ⟨.failure e, true⟩
        | .ok res => ⟨.success 200 res, true⟩

/-- handleGetNotificationRules: decode filter → store list call → compose-all
→ 200. -/
def handleGetNotificationRules (req : Request) (env : Env) :
    HandlerOutcome NotificationRulesResponse :=
  match decodeNotificationRuleFilter req.query with
  | .panic => ⟨.panic, false⟩
  | .err e => ⟨.failure e, false⟩
  | .ok (f, opts) =>
    match env.store.find f opts with
    | .error e => ⟨.failure e, true⟩
    | .ok (nrs, _) =>
      ⟨.success 200 (newNotificationRulesResponse env nrs f opts), true⟩

/-- handleGetNotificationRuleQuery: decode id → fetch rule → fetch endpoint
(failure wrapped as internal) → render the flux query → 200. -/
def handleGetNotificationRuleQuery (req : Request) (env : Env) :
    HandlerOutcome String :=
  match decodeGetNotificationRuleRequest req.pathID with
  | .error e => ⟨.failure e, false⟩
  | .ok i =>
    match env.store.findByID i with
    | .error e => ⟨.failure e, true⟩
    | .ok nr =>
      match env.findEndpointByID nr.endpointID with
      | .error _ =>
        ⟨.failure { code := ErrCode.internal, msg := "http/handleGetNotificationRuleQuery" }, true⟩
      | .ok edp =>
        match env.generateFlux nr edp with
        | .error e => ⟨.failure e, true⟩
        | .ok flux => ⟨.success 200 flux, true⟩

/-- handlePostNotificationRule: decode body → require authenticated principal
→ store create → best-effort label attachment → compose → 201. -/
def handlePostNotificationRule (req : Request) (env : Env) :
    HandlerOutcome NotificationRuleResponse :=
  match decodePostNotificationRuleRequest req.body with
  | .panic => ⟨.panic, false⟩
  | .err e => ⟨.failure e, false⟩
  | .ok pnrr =>
    match req.auth with
    | none => ⟨.failure unauthorizedErr, false⟩
    | some userID =>
      match env.store.create pnrr.nrc userID with
      | .error e => ⟨.failure e, true⟩
      | .ok created =>
        let labels :=
          (mapNewNotificationRuleLabels env { pnrr.nrc with rule := created } pnrr.labels).1
        match newNotificationRuleResponse env created labels with
        | .error e => ⟨.failure e, true⟩
        | .ok res => ⟨.success 201 res, true⟩

/-- handlePutNotificationRule: decode full body with path id → require
authenticated principal → store update → refetch labels (propagating failure)
→ compose → 200. -/
def handlePutNotificationRule (req : Request) (env : Env) :
    HandlerOutcome NotificationRuleResponse :=
  match decodePutNotificationRuleRequest req.body req.pathID with
  | .panic => ⟨.panic, false⟩
  | .err e => ⟨.failure e, false⟩
  | .ok nrc =>
    match req.auth with
    | none => ⟨.failure unauthorizedErr, false⟩
    | some userID =>
      match env.store.update nrc.rule.id nrc userID with
      | .error e => ⟨.failure e, true⟩
      | .ok nr =>
        match env.findResourceLabels nr.id with
        | .error e => ⟨.failure e, true⟩
        | .ok labels =>
          match newNotificationRuleResponse env nr labels with
          | .error e => ⟨.failure e, true⟩
          | .ok res => ⟨.success 200 res, true⟩

/-- handlePatchNotificationRule: decode id and changeset → store patch →
refetch labels (propagating failure) → compose → 200. Never consults the
authenticated principal. -/
def handlePatchNotificationRule (req : Request) (env : Env) :
    HandlerOutcome NotificationRuleResponse :=
  match decodePatchNotificationRuleRequest req.pathID req.patchBody with
  | .error e => ⟨.failure e, false⟩
  | .ok preq =>
    match env.store.patch preq.id preq.upd with
    | .error e => ⟨.failure e, true⟩
    | .ok nr =>
      match env.findResourceLabels nr.id with
      | .error e => ⟨.failure e, true⟩
      | .ok labels =>
        match newNotificationRuleResponse env nr labels with
        | .error e => ⟨.failure e, true⟩
        | .ok res => ⟨.success 200 res, true⟩

/-- handleDeleteNotificationRule: decode id → store delete → 204 with no
body. Never consults the authenticated principal. -/
def handleDeleteNotificationRule (req : Request) (env : Env) :
    HandlerOutcome Unit :=
  match decodeGetNotificationRuleRequest req.pathID with
  | .error e => ⟨.failure e, false⟩
  | .ok i =>
    match env.store.delete i with
    | .error e => ⟨.failure e, true⟩
    | .ok _ => ⟨.success 204 (), true⟩

/-! ## Route wiring for the label sub-resource -/

/-- The LabelBackend configuration made in NewNotificationRuleHandler for the
rule's `/labels` sub-resource routes. -/
structure LabelBackendConfig where
  resourceType : ResourceType
deriving DecidableEq, Repr

/-- NewNotificationRuleHandler wires the label sub-resource backend with
`ResourceType: influxdb.TelegrafsResourceType` (line 135 of the source). -/
def notificationRuleLabelBackend : LabelBackendConfig :=
  { resourceType := ResourceType.telegrafs }

/-- Modelled from the spec: the shared label sub-resource POST handler
(newPostLabelHandler, not under src/) creates a mapping carrying the backend's
configured resource type. -/
def postLabelMapping (cfg : LabelBackendConfig) (ruleID labelID : ID) : LabelMapping :=
  { labelID := labelID, resourceID := ruleID, resourceType := cfg.resourceType }

/-! ## Remote store adapter (client-side NotificationRuleService) -/

/-- The wire calls an adapter method performs (method and path), recorded so a
stub's absence of wire traffic is visible. -/
abbrev WireCalls := List String

/-- The remote adapter's list stub: empty rules, zero count, no error, no wire
call. -/
def remoteFindNotificationRules (f : NotificationRuleFilter) (opts : List FindOptions) :
    (List NotificationRule × Nat × Option Err) × WireCalls :=
  (([], 0, none), [])

/-- The remote adapter's replace stub: nil rule, no error, no wire call. -/
def remoteUpdateNotificationRule (i : ID) (nrc : NotificationRuleCreate) (userID : ID) :
    (Option NotificationRule × Option Err) × WireCalls :=
  ((none, none), [])

/-- The remote adapter's patch stub: nil rule, no error, no wire call. -/
def remotePatchNotificationRule (i : ID) (upd : NotificationRuleUpdate) :
    (Option NotificationRule × Option Err) × WireCalls :=
  ((none, none), [])

/-- The remote adapter's delete stub: no error, no wire call. -/
def remoteDeleteNotificationRule (i : ID) : Option Err × WireCalls :=
  (none, [])

/-! ## JSON rendering of responses -/

/-- A minimal JSON value model for stating which fields an encoded response
carries. -/
inductive Json where
  | str : String → Json
  | num : Nat → Json
  | arr : List Json → Json
  | obj : List (String × Json) → Json

/-- The keys of an encoded JSON object. -/
def jsonObjKeys : Json → List String
  | .obj fields => fields.map Prod.fst
  | _ => []

/-- Field lookup in a JSON object's field list. -/
def jsonFieldsLookup (k : String) : List (String × Json) → Option Json
  | [] => none
  | (k2, v) :: rest => if k2 = k then some v else jsonFieldsLookup k rest

/-- Field lookup in an encoded JSON object. -/
def jsonLookup (k : String) : Json → Option Json
  | .obj fields => jsonFieldsLookup k fields
  | _ => none

/-- Encoding of a label entity. -/
def encodeLabel (l : Label) : Json :=
  .obj [("id", .str (idToString l.id)), ("name", .str l.name)]

/-- Encoding of the single-rule hyperlinks (json tags of
notificationRuleLinks). -/
def encodeNotificationRuleLinks (l : NotificationRuleLinks) : Json :=
  .obj [("self", .str l.self), ("labels", .str l.labels),
        ("members", .str l.members), ("owners", .str l.owners),
        ("query", .str l.query)]

/-- Modelled from the spec: the JSON fields of the domain rule's own
marshalling (rule-variant specific, not under src/). The secret fields are
present exactly when the rule still carries private data. -/
def ruleJSONFields (nr : NotificationRule) : List (String × Json) :=
  [("id", .str (idToString nr.id)),
   ("name", .str nr.name),
   ("description", .str nr.description),
   ("orgID", .str (idToString nr.orgID)),
   ("ownerID", .str (idToString nr.ownerID)),
   ("taskID", .str (idToString nr.taskID)),
   ("endpointID", .str (idToString nr.endpointID))] ++
  (match nr.privateData with
   | none => []
   | some s => [("privateData", Json.str s)])

/-- notificationRuleResponse.MarshalJSON: the domain rule's object body and
the derived-field object body are spliced into one flat object — the rule's
fields followed by labels, links and the flattened task snapshot. -/
def encodeNotificationRuleResponse (res : NotificationRuleResponse) : Json :=
  .obj (ruleJSONFields res.rule ++
    [("labels", .arr (res.labels.map encodeLabel)),
     ("links", encodeNotificationRuleLinks res.links),
     ("status", .str res.status),
     ("latestCompleted", .num res.latestCompleted),
     ("latestScheduled", .num res.latestScheduled),
     ("lastRunStatus", .str res.lastRunStatus),
     ("lastRunError", .str res.lastRunError)])

/-- Encoding of the paging links. -/
def encodePagingLinks (p : PagingLinks) : Json :=
  .obj [("self", .str p.self)]

/-- Encoding of the list wrapper, with the json tags of the Go struct: the
item array under "notificationRules" and the links under "links". -/
def encodeNotificationRulesResponse (resp : NotificationRulesResponse) : Json :=
  .obj [("notificationRules", .arr (resp.notificationRules.map encodeNotificationRuleResponse)),
        ("links", encodePagingLinks resp.links)]

/-! ## Concrete fixtures used by the witnesses -/

/-- A task snapshot the sample task service returns for task 5. -/
def taskA : Task :=
  { status := "active", latestCompleted := 3, latestScheduled := 4,
    lastRunStatus := "success", lastRunError := "" }

/-- A rule whose task lookup succeeds and whose label fetch succeeds. -/
def ruleA : NotificationRule :=
  { id := 10, orgID := 1, ownerID := 2, taskID := 5, endpointID := 6,
    name := "r", description := "", privateData := some "secret-token" }

/-- A rule whose task lookup fails (task 7 is unknown). -/
def ruleB : NotificationRule :=
  { ruleA with id := 11, taskID := 7 }

/-- A rule whose label fetch fails (resource 12 is unknown to the label
service) but whose task lookup succeeds. -/
def ruleC : NotificationRule :=
  { ruleA with id := 12 }

/-- The label the sample label service resolves for identifier 21. -/
def labelA : Label :=
  { id := 21, name := "l1" }

/-- The task-lookup error of the sample environment. -/
def taskErrA : Err :=
  { code := ErrCode.notFound, msg := "task not found" }

/-- A sample store: lookups succeed, create assigns identity 10. -/
def storeA : Store :=
  { findByID := fun _ => .ok ruleA
    find := fun _ _ => .ok ([ruleA], 1)
    create := fun nrc _ => .ok { nrc.rule with id := 10 }
    update := fun _ nrc _ => .ok nrc.rule
    patch := fun _ _ => .ok ruleA
    delete := fun _ => .ok () }

/-- A sample environment: task 5 exists, labels resolve only for resource 10
and label 21, endpoint and flux rendering succeed. -/
def envA : Env :=
  { store := storeA
    findTaskByID := fun i =>
      match i with
      | 5 => .ok taskA
      | _ => .error taskErrA
    findResourceLabels := fun i =>
      match i with
      | 10 => .ok [labelA]
      | _ => .error { code := ErrCode.internal, msg := "label fetch failed" }
    findLabelByID := fun i =>
      match i with
      | 21 => .ok labelA
      | _ => .error { code := ErrCode.notFound, msg := "label not found" }
    createLabelMapping := fun _ => .ok ()
    findEndpointByID := fun _ => .ok { id := 6 }
    generateFlux := fun _ _ => .ok "flux" }

/-- A handler outcome that is an invalid-argument failure reached without any
notification-rule store call. -/
def invalidNoStore {α : Type} (o : HandlerOutcome α) : Prop :=
  (∃ e : Err, o.result = HResult.failure e ∧ e.code = ErrCode.invalid) ∧
    o.storeCalled = false

/-- The hex string of label identifier 21, a resolvable candidate. -/
def sidGood : String := "0000000000000015"

/-- A request with a malformed `:id` path parameter. -/
def reqBadID : Request := { pathID := "zz" }

/-- A well-formed create request carrying one resolvable and one malformed
candidate label ID, with an authenticated principal. -/
def reqPost0 : Request :=
  { body := { rule := some ruleA, status := some Status.active, labels := [sidGood, "zz"] }
    auth := some 3 }

/-- The decode result of reqPost0's body. -/
def pnrr0 : PostNotificationRuleRequest :=
  { nrc := { rule := ruleA, status := Status.active }, labels := [sidGood, "zz"] }

/-- reqPost0 with the authenticated principal missing. -/
def reqPostNoAuth : Request :=
  { reqPost0 with auth := none }

/-- A patch request against rule 10 with an empty (valid) changeset. -/
def reqPatch0 : Request :=
  { pathID := "000000000000000a", patchBody := some {} }

/-- A well-formed replace request against rule 10 with the authenticated
principal missing. -/
def reqPutNoAuth : Request :=
  { pathID := "000000000000000a"
    body := { rule := some ruleA, status := some Status.active }
    auth := none }

/-- The decode result of reqPutNoAuth: the path identity bound onto the rule. -/
def nrcPut0 : NotificationRuleCreate :=
  { rule := { ruleA with id := 10 }, status := Status.active }

/-- A sample list response used when inspecting the encoded list wrapper. -/
def rulesRespA : NotificationRulesResponse :=
  { notificationRules := [mkRuleResponse (clearPrivateData ruleA) [labelA] taskA]
    links := { self := "/api/v2/notificationRules" } }

/-! ## Theorems -/

/-- The list-composition loop is the ordered filterMap of the per-item
composition over the store's rules. -/
theorem listLoop_eq_filterMap (env : Env) :
    ∀ nrs : List NotificationRule, listLoop env nrs = nrs.filterMap (composeListItem env)
  | [] => rfl
  | nr :: rest => by
    have ih := listLoop_eq_filterMap env rest
    simp only [listLoop, List.filterMap_cons]
    cases hl : env.findResourceLabels nr.id with
    | error e =>
      cases hc : newNotificationRuleResponse env nr [] with
      | error e2 => simp [composeListItem, hl, hc, Except.toOption, ih]
      | ok res => simp [composeListItem, hl, hc, Except.toOption, ih]
    | ok ls =>
      cases hc : newNotificationRuleResponse env nr ls with
      | error e2 => simp [composeListItem, hl, hc, Except.toOption, ih]
      | ok res => simp [composeListItem, hl, hc, Except.toOption, ih]

/-- C1: For every list request, response composition degrades per item: the
returned items are, in the store's order, exactly the rules whose per-item
composition succeeds (so their count is at most the number of rules the store
returned); a label-fetch failure for one rule yields an empty label list for
that rule only while its task status is still fetched; and a rule whose
task-status lookup fails is absent without a request-level error. -/
theorem listResponse_degradation (env : Env) (nrs : List NotificationRule)
    (f : NotificationRuleFilter) (opts : FindOptions) :
    (newNotificationRulesResponse env nrs f opts).notificationRules.length ≤ nrs.length
    ∧ (newNotificationRulesResponse env nrs f opts).notificationRules
        = nrs.filterMap (composeListItem env)
    ∧ (∀ nr : NotificationRule, ∀ t : Task,
        isErrE (env.findResourceLabels nr.id) = true →
        env.findTaskByID nr.taskID = .ok t →
        composeListItem env nr = some (mkRuleResponse (clearPrivateData nr) [] t))
    ∧ (∀ nr : NotificationRule, ∀ e : Err,
        env.findTaskByID nr.taskID = .error e →
        composeListItem env nr = none) := by
  refine ⟨?_, ?_, ?_, ?_⟩
  · show (listLoop env nrs).length ≤ nrs.length
    rw [listLoop_eq_filterMap]
    exact List.length_filterMap_le _ _
  · exact listLoop_eq_filterMap env nrs
  · intro nr t hl ht
    cases hfl : env.findResourceLabels nr.id with
    | error e =>
      simp [composeListItem, hfl, newNotificationRuleResponse, ht, Except.toOption]
    | ok ls =>
      rw [hfl] at hl
      simp [isErrE] at hl
  · intro nr e ht
    simp [composeListItem, newNotificationRuleResponse, ht, Except.toOption]

/-- C1 witness: in the sample environment, ruleC's label fetch fails yet its
task status is fetched and it composes with an empty label list; ruleB, whose
task lookup fails, is dropped. -/
theorem listResponse_degradation_witness :
    composeListItem envA ruleC = some (mkRuleResponse (clearPrivateData ruleC) [] taskA)
    ∧ composeListItem envA ruleB = none := by
  constructor
  · exact (listResponse_degradation envA [] {} {}).2.2.1 ruleC taskA rfl rfl
  · exact (listResponse_degradation envA [] {} {}).2.2.2 ruleB taskErrA rfl

/-- The attachment loop keeps a label exactly when its candidate string
decodes, resolves, and has its mapping created. -/
theorem attachOne_isSome (env : Env) (nrc : NotificationRuleCreate) (sid : String) :
    ((attachOne env nrc sid).1).isSome = candidateSucceeds env nrc sid := by
  unfold attachOne candidateSucceeds
  cases hd : decodeIDFromString sid with
  | error e => simp
  | ok lid =>
    cases hf : env.findLabelByID lid with
    | error e => simp [hf]
    | ok label =>
      cases hc : env.createLabelMapping
          { labelID := label.id, resourceID := nrc.rule.id,
            resourceType := ResourceType.notificationRule } with
      | error e => simp [hf, hc]
      | ok u => simp [hf, hc]

/-- The attached labels are the ordered filterMap of the per-candidate step. -/
theorem mapLabels_eq_filterMap (env : Env) (nrc : NotificationRuleCreate) :
    ∀ sids : List String,
      (mapNewNotificationRuleLabels env nrc sids).1
        = sids.filterMap (fun sid => (attachOne env nrc sid).1)
  | [] => rfl
  | sid :: rest => by
    have ih := mapLabels_eq_filterMap env nrc rest
    simp only [mapNewNotificationRuleLabels, List.filterMap_cons]
    cases h : (attachOne env nrc sid).1 <;> simp [h, ih, Option.toList]

/-- The number of attached labels equals the number of fully successful
candidates. -/
theorem mapLabels_length (env : Env) (nrc : NotificationRuleCreate) :
    ∀ sids : List String,
      (mapNewNotificationRuleLabels env nrc sids).1.length
        = (sids.filter (candidateSucceeds env nrc)).length
  | [] => rfl
  | sid :: rest => by
    have ih := mapLabels_length env nrc rest
    have hs := attachOne_isSome env nrc sid
    simp only [mapNewNotificationRuleLabels, List.filter_cons]
    cases h : (attachOne env nrc sid).1 with
    | none =>
      rw [h] at hs
      simp only [Option.isSome_none] at hs
      simp [← hs, Option.toList, ih]
    | some l =>
      rw [h] at hs
      simp only [Option.isSome_some] at hs
      simp [← hs, Option.toList, ih]

/-- A successful create: decode, principal, store create, then composition of
the created rule with the best-effort attached labels. -/
theorem handlePost_success_eq (env : Env) (req : Request)
    (pnrr : PostNotificationRuleRequest) (userID : ID)
    (created : NotificationRule) (t : Task)
    (h1 : decodePostNotificationRuleRequest req.body = .ok pnrr)
    (h2 : req.auth = some userID)
    (h3 : env.store.create pnrr.nrc userID = .ok created)
    (h4 : env.findTaskByID created.taskID = .ok t) :
    handlePostNotificationRule req env =
      ⟨.success 201 (mkRuleResponse (clearPrivateData created)
          (mapNewNotificationRuleLabels env { pnrr.nrc with rule := created } pnrr.labels).1 t),
       true⟩ := by
  simp only [handlePostNotificationRule, h1, h2, h3, newNotificationRuleResponse, h4]

/-- C2: For every create request whose N candidate label-ID strings contain
exactly K that decode, resolve to existing labels, and have their mapping
created, the attachment operation returns exactly those K labels in candidate
order (no failure among the other N−K aborts the loop or fails the
operation), and a successful create response carries exactly these K labels. -/
theorem createLabels_bestEffort (env : Env) (nrc : NotificationRuleCreate)
    (sids : List String) :
    (mapNewNotificationRuleLabels env nrc sids).1
      = sids.filterMap (fun sid => (attachOne env nrc sid).1)
    ∧ (mapNewNotificationRuleLabels env nrc sids).1.length
      = (sids.filter (candidateSucceeds env nrc)).length
    ∧ (∀ req : Request, ∀ pnrr : PostNotificationRuleRequest, ∀ userID : ID,
        ∀ created : NotificationRule, ∀ t : Task,
        decodePostNotificationRuleRequest req.body = .ok pnrr →
        req.auth = some userID →
        env.store.create pnrr.nrc userID = .ok created →
        env.findTaskByID created.taskID = .ok t →
        handlePostNotificationRule req env =
          ⟨.success 201 (mkRuleResponse (clearPrivateData created)
              (mapNewNotificationRuleLabels env { pnrr.nrc with rule := created }
                pnrr.labels).1 t),
           true⟩) := by
  refine ⟨mapLabels_eq_filterMap env nrc sids, mapLabels_length env nrc sids, ?_⟩
  intro req pnrr userID created t h1 h2 h3 h4
  exact handlePost_success_eq env req pnrr userID created t h1 h2 h3 h4

/-- C2 witness: the sample create request has two candidates of which one
succeeds; the create response carries exactly that one label. -/
theorem createLabels_bestEffort_witness :
    handlePostNotificationRule reqPost0 envA =
      ⟨.success 201 (mkRuleResponse (clearPrivateData ruleA)
          (mapNewNotificationRuleLabels envA { pnrr0.nrc with rule := ruleA }
            pnrr0.labels).1 taskA),
       true⟩
    ∧ (mapNewNotificationRuleLabels envA { pnrr0.nrc with rule := ruleA }
        pnrr0.labels).1 = [labelA] := by
  constructor
  · exact (createLabels_bestEffort envA pnrr0.nrc pnrr0.labels).2.2
      reqPost0 pnrr0 3 ruleA taskA rfl rfl rfl rfl
  · rfl

/-- Any successful single-item composition embeds a rule whose private data is
cleared. -/
theorem compose_ok_privateData (env : Env) (nr : NotificationRule)
    (labels : List Label) (res : NotificationRuleResponse)
    (h : newNotificationRuleResponse env nr labels = .ok res) :
    res.rule.privateData = none := by
  unfold newNotificationRuleResponse at h
  cases ht : env.findTaskByID nr.taskID with
  | error e => rw [ht] at h; simp at h
  | ok t =>
    rw [ht] at h
    injection h with h2
    subst h2
    rfl

/-- A response whose rule carries no private data encodes with no
private-data field. -/
theorem encode_no_privateData (res : NotificationRuleResponse)
    (h : res.rule.privateData = none) :
    jsonLookup "privateData" (encodeNotificationRuleResponse res) = none := by
  simp [jsonLookup, encodeNotificationRuleResponse, ruleJSONFields, h, jsonFieldsLookup]

/-- C3: For every rule that reaches single-item response composition (used by
create, get, replace and patch), the composer clears the rule's private/secret
fields before embedding it, so the composed (and encoded) response never
contains the input's private data. -/
theorem composer_clearsPrivateData (env : Env) :
    (∀ (nr : NotificationRule) (labels : List Label) (res : NotificationRuleResponse),
        newNotificationRuleResponse env nr labels = .ok res →
        res.rule.privateData = none
        ∧ jsonLookup "privateData" (encodeNotificationRuleResponse res) = none)
    ∧ (∀ (req : Request) (code : Nat) (res : NotificationRuleResponse),
        (handlePostNotificationRule req env).result = HResult.success code res →
        res.rule.privateData = none)
    ∧ (∀ (req : Request) (code : Nat) (res : NotificationRuleResponse),
        (handleGetNotificationRule req env).result = HResult.success code res →
        res.rule.privateData = none)
    ∧ (∀ (req : Request) (code : Nat) (res : NotificationRuleResponse),
        (handlePutNotificationRule req env).result = HResult.success code res →
        res.rule.privateData = none)
    ∧ (∀ (req : Request) (code : Nat) (res : NotificationRuleResponse),
        (handlePatchNotificationRule req env).result = HResult.success code res →
        res.rule.privateData = none) := by
  refine ⟨?_, ?_, ?_, ?_, ?_⟩
  · intro nr labels res h
    have hp := compose_ok_privateData env nr labels res h
    exact ⟨hp, encode_no_privateData res hp⟩
  · intro req code res h
    unfold handlePostNotificationRule at h
    cases hd : decodePostNotificationRuleRequest req.body with
    | panic => simp only [hd] at h; simp at h
    | err e => simp only [hd] at h; simp at h
    | ok pnrr =>
      simp only [hd] at h
      cases ha : req.auth with
      | none => simp only [ha] at h; simp at h
      | some userID =>
        simp only [ha] at h
        cases hc : env.store.create pnrr.nrc userID with
        | error e => simp only [hc] at h; simp at h
        | ok created =>
          simp only [hc] at h
          cases hm : newNotificationRuleResponse env created
              (mapNewNotificationRuleLabels env { pnrr.nrc with rule := created }
                pnrr.labels).1 with
          | error e => simp only [hm] at h; simp at h
          | ok r =>
            simp only [hm] at h
            simp at h
            obtain ⟨h1, h2⟩ := h
            subst h2
            exact compose_ok_privateData _ _ _ _ hm
  · intro req code res h
    unfold handleGetNotificationRule at h
    cases hd : decodeGetNotificationRuleRequest req.pathID with
    | error e => simp only [hd] at h; simp at h
    | ok i =>
      simp only [hd] at h
      cases hs : env.store.findByID i with
      | error e => simp only [hs] at h; simp at h
      | ok nr =>
        simp only [hs] at h
        cases hl : env.findResourceLabels nr.id with
        | error e => simp only [hl] at h; simp at h
        | ok labels =>
          simp only [hl] at h
          cases hm : newNotificationRuleResponse env nr labels with
          | error e => simp only [hm] at h; simp at h
          | ok r =>
            simp only [hm] at h
            simp at h
            obtain ⟨h1, h2⟩ := h
            subst h2
            exact compose_ok_privateData _ _ _ _ hm
  · intro req code res h
    unfold handlePutNotificationRule at h
    cases hd : decodePutNotificationRuleRequest req.body req.pathID with
    | panic => simp only [hd] at h; simp at h
    | err e => simp only [hd] at h; simp at h
    | ok nrc =>
      simp only [hd] at h
      cases ha : req.auth with
      | none => simp only [ha] at h; simp at h
      | some userID =>
        simp only [ha] at h
        cases hu : env.store.update nrc.rule.id nrc userID with
        | error e => simp only [hu] at h; simp at h
        | ok nr =>
          simp only [hu] at h
          cases hl : env.findResourceLabels nr.id with
          | error e => simp only [hl] at h; simp at h
          | ok labels =>
            simp only [hl] at h
            cases hm : newNotificationRuleResponse env nr labels with
            | error e => simp only [hm] at h; simp at h
            | ok r =>
              simp only [hm] at h
              simp at h
              obtain ⟨h1, h2⟩ := h
              subst h2
              exact compose_ok_privateData _ _ _ _ hm
  · intro req code res h
    unfold handlePatchNotificationRule at h
    cases hd : decodePatchNotificationRuleRequest req.pathID req.patchBody with
    | error e => simp only [hd] at h; simp at h
    | ok preq =>
      simp only [hd] at h
      cases hp : env.store.patch preq.id preq.upd with
      | error e => simp only [hp] at h; simp at h
      | ok nr =>
        simp only [hp] at h
        cases hl : env.findResourceLabels nr.id with
        | error e => simp only [hl] at h; simp at h
        | ok labels =>
          simp only [hl] at h
          cases hm : newNotificationRuleResponse env nr labels with
          | error e => simp only [hm] at h; simp at h
          | ok r =>
            simp only [hm] at h
            simp at h
            obtain ⟨h1, h2⟩ := h
            subst h2
            exact compose_ok_privateData _ _ _ _ hm

/-- C3 witness: the composed response for ruleA (whose input carries a secret)
has its private data cleared and encodes with no private-data field. -/
theorem composer_clearsPrivateData_witness :
    (mkRuleResponse (clearPrivateData ruleA) [labelA] taskA).rule.privateData = none
    ∧ jsonLookup "privateData"
        (encodeNotificationRuleResponse
          (mkRuleResponse (clearPrivateData ruleA) [labelA] taskA)) = none :=
  (composer_clearsPrivateData envA).1 ruleA [labelA] _ rfl


/-- Every failure of the modelled identifier decode carries the
invalid-argument code. -/
theorem decodeID_error_invalid (s : String) (e : Err)
    (h : decodeIDFromString s = .error e) : e.code = ErrCode.invalid := by
  unfold decodeIDFromString at h
  split at h
  · injection h with h2
    subst h2
    rfl
  · cases hp : parseHex s with
    | none =>
      rw [hp] at h
      injection h with h2
      subst h2
      rfl
    | some n =>
      rw [hp] at h
      simp at h

/-- A missing or malformed path identifier makes
decodeGetNotificationRuleRequest fail with an invalid-argument error. -/
theorem decodeGet_bad (pid : String)
    (h : pid = "" ∨ isErrE (decodeIDFromString pid) = true) :
    ∃ e : Err, decodeGetNotificationRuleRequest pid = .error e
      ∧ e.code = ErrCode.invalid := by
  by_cases hp : pid = ""
  · subst hp
    exact ⟨{ code := ErrCode.invalid, msg := "url missing id" }, rfl, rfl⟩
  · cases h with
    | inl h0 => exact absurd h0 hp
    | inr h0 =>
      cases hd : decodeIDFromString pid with
      | error e =>
        refine ⟨e, ?_, decodeID_error_invalid pid e hd⟩
        simp [decodeGetNotificationRuleRequest, hp, hd]
      | ok i =>
        rw [hd] at h0
        simp [isErrE] at h0

/-- C4: For every get, replace, patch, delete, or query request whose path
identifier is missing or fails to decode, the handler returns an
invalid-argument error (never not-found) and makes no store call. -/
theorem malformedPathID_alwaysInvalid (req : Request) (env : Env)
    (h : req.pathID = "" ∨ isErrE (decodeIDFromString req.pathID) = true) :
    invalidNoStore (handleGetNotificationRule req env)
    ∧ invalidNoStore (handlePutNotificationRule req env)
    ∧ invalidNoStore (handlePatchNotificationRule req env)
    ∧ invalidNoStore (handleDeleteNotificationRule req env)
    ∧ invalidNoStore (handleGetNotificationRuleQuery req env) := by
  obtain ⟨e, he, hcode⟩ := decodeGet_bad req.pathID h
  refine ⟨?_, ?_, ?_, ?_, ?_⟩
  · unfold handleGetNotificationRule
    simp only [he]
    exact ⟨⟨e, rfl, hcode⟩, rfl⟩
  · unfold handlePutNotificationRule
    unfold decodePutNotificationRuleRequest
    cases hr : req.body.rule with
    | none =>
      simp only [hr]
      exact ⟨⟨_, rfl, rfl⟩, rfl⟩
    | some nr =>
      simp only [hr]
      by_cases hp : req.pathID = ""
      · simp only [hp, if_pos rfl]
        exact ⟨⟨_, rfl, rfl⟩, rfl⟩
      · cases h with
        | inl h0 => exact absurd h0 hp
        | inr h0 =>
          cases hd : decodeIDFromString req.pathID with
          | error e2 =>
            simp only [if_neg hp, hd]
            exact ⟨⟨e2, rfl, decodeID_error_invalid req.pathID e2 hd⟩, rfl⟩
          | ok i =>
            rw [hd] at h0
            simp [isErrE] at h0
  · unfold handlePatchNotificationRule
    unfold decodePatchNotificationRuleRequest
    by_cases hp : req.pathID = ""
    · simp only [hp, if_pos rfl]
      exact ⟨⟨_, rfl, rfl⟩, rfl⟩
    · cases h with
      | inl h0 => exact absurd h0 hp
      | inr h0 =>
        cases hd : decodeIDFromString req.pathID with
        | error e2 =>
          simp only [if_neg hp, hd]
          exact ⟨⟨e2, rfl, decodeID_error_invalid req.pathID e2 hd⟩, rfl⟩
        | ok i =>
          rw [hd] at h0
          simp [isErrE] at h0
  · unfold handleDeleteNotificationRule
    simp only [he]
    exact ⟨⟨e, rfl, hcode⟩, rfl⟩
  · unfold handleGetNotificationRuleQuery
    simp only [he]
    exact ⟨⟨e, rfl, hcode⟩, rfl⟩

/-- C4 witness: a request whose `:id` is "zz" gets an invalid-argument error
from all five handlers, with no store call. -/
theorem malformedPathID_alwaysInvalid_witness :
    invalidNoStore (handleGetNotificationRule reqBadID envA)
    ∧ invalidNoStore (handlePutNotificationRule reqBadID envA)
    ∧ invalidNoStore (handlePatchNotificationRule reqBadID envA)
    ∧ invalidNoStore (handleDeleteNotificationRule reqBadID envA)
    ∧ invalidNoStore (handleGetNotificationRuleQuery reqBadID envA) :=
  malformedPathID_alwaysInvalid reqBadID envA (Or.inr rfl)

/-- C5: evaluating the list-filter decoder on query parameters with no orgID
and a non-empty org name: instead of binding the name and completing, the
org-name branch writes through the filter's nil organization pointer — the
decode hits a nil-pointer dereference. -/
theorem orgNameFilter_nilDereference :
    decodeNotificationRuleFilter { org := "myorg" } = DecodeResult.panic
    ∧ ({} : NotificationRuleFilter).organization = none :=
  ⟨rfl, rfl⟩

/-- C6: create-time label attachment pins the notification-rule resource type
on the mapping it creates, but NewNotificationRuleHandler wires the label
sub-resource backend with the telegraf resource type, so mappings created
through the rule's label routes do not carry the notification-rule type. -/
theorem labelRoute_resourceType_mismatch :
    (mapNewNotificationRuleLabels envA { rule := ruleA, status := Status.active }
        [sidGood]).2
      = [{ labelID := 21, resourceID := 10, resourceType := ResourceType.notificationRule }]
    ∧ notificationRuleLabelBackend.resourceType = ResourceType.telegrafs
    ∧ (postLabelMapping notificationRuleLabelBackend ruleA.id labelA.id).resourceType
        ≠ ResourceType.notificationRule :=
  ⟨rfl, rfl, by decide⟩

/-- C7: the remote store adapter's list operation returns an empty rule list,
zero count and no error; replace and patch return a nil rule and no error;
delete returns no error — and none of the four performs a wire call. -/
theorem remoteAdapter_stubs (f : NotificationRuleFilter) (opts : List FindOptions)
    (i userID : ID) (nrc : NotificationRuleCreate) (upd : NotificationRuleUpdate) :
    remoteFindNotificationRules f opts = (([], 0, none), [])
    ∧ remoteUpdateNotificationRule i nrc userID = ((none, none), [])
    ∧ remotePatchNotificationRule i upd = ((none, none), [])
    ∧ remoteDeleteNotificationRule i = (none, []) :=
  ⟨rfl, rfl, rfl, rfl⟩

/-- C8 counterexample: the encoded list wrapper carries no "items" field; its
item array sits under the "notificationRules" key. -/
theorem listWrapper_itemsField_counterexample :
    jsonLookup "items" (encodeNotificationRulesResponse rulesRespA) = none
    ∧ jsonLookup "notificationRules" (encodeNotificationRulesResponse rulesRespA)
        = some (Json.arr (rulesRespA.notificationRules.map encodeNotificationRuleResponse)) :=
  ⟨rfl, rfl⟩

/-- C8 (amended): for every list response, the encoded body is a collection
wrapper whose item array is carried under the field name "notificationRules"
alongside a "links" field. -/
theorem listWrapper_fields (resp : NotificationRulesResponse) :
    jsonObjKeys (encodeNotificationRulesResponse resp)
      = ["notificationRules", "links"]
    ∧ jsonLookup "notificationRules" (encodeNotificationRulesResponse resp)
        = some (Json.arr (resp.notificationRules.map encodeNotificationRuleResponse))
    ∧ jsonLookup "links" (encodeNotificationRulesResponse resp)
        = some (encodePagingLinks resp.links) :=
  ⟨rfl, rfl, rfl⟩

/-- An identifier only decodes from a non-empty string. -/
theorem decodeID_ok_ne_empty (pid : String) (i : ID)
    (h : decodeIDFromString pid = .ok i) : pid ≠ "" := by
  intro hp
  subst hp
  simp [decodeIDFromString] at h

/-- C9: the create and replace body decoders are total only when the body
carries a non-null status field: with a parseable rule and an absent/null
status they reach the unguarded nil status-pointer dereference instead of
returning an invalid-argument error; with a status present they succeed. -/
theorem bodyDecoders_statusPrecondition (body : Body) (pathID : String) :
    (∀ nr : NotificationRule, body.rule = some nr → body.status = none →
        decodePostNotificationRuleRequest body = DecodeResult.panic)
    ∧ (∀ (nr : NotificationRule) (st : Status),
        body.rule = some nr → body.status = some st →
        decodePostNotificationRuleRequest body
          = DecodeResult.ok { nrc := { rule := nr, status := st }, labels := body.labels })
    ∧ (∀ (nr : NotificationRule) (i : ID),
        body.rule = some nr → body.status = none →
        decodeIDFromString pathID = Except.ok i →
        decodePutNotificationRuleRequest body pathID = DecodeResult.panic)
    ∧ (∀ (nr : NotificationRule) (st : Status) (i : ID),
        body.rule = some nr → body.status = some st →
        decodeIDFromString pathID = Except.ok i →
        decodePutNotificationRuleRequest body pathID
          = DecodeResult.ok { rule := { nr with id := i }, status := st }) := by
  refine ⟨?_, ?_, ?_, ?_⟩
  · intro nr h1 h2
    simp only [decodePostNotificationRuleRequest, h1, h2]
  · intro nr st h1 h2
    simp only [decodePostNotificationRuleRequest, h1, h2]
  · intro nr i h1 h2 h3
    have hne := decodeID_ok_ne_empty pathID i h3
    simp only [decodePutNotificationRuleRequest, h1, h2, h3, if_neg hne]
  · intro nr st i h1 h2 h3
    have hne := decodeID_ok_ne_empty pathID i h3
    simp only [decodePutNotificationRuleRequest, h1, h2, h3, if_neg hne]

/-- C9 witness: with ruleA's body and rule 10's path identifier, both decoders
panic exactly when status is absent and succeed when it is present. -/
theorem bodyDecoders_statusPrecondition_witness :
    decodePostNotificationRuleRequest { rule := some ruleA, status := none }
      = DecodeResult.panic
    ∧ decodePostNotificationRuleRequest
        { rule := some ruleA, status := some Status.active }
      = DecodeResult.ok { nrc := { rule := ruleA, status := Status.active }, labels := [] }
    ∧ decodePutNotificationRuleRequest { rule := some ruleA, status := none }
        "000000000000000a"
      = DecodeResult.panic
    ∧ decodePutNotificationRuleRequest { rule := some ruleA, status := some Status.active }
        "000000000000000a"
      = DecodeResult.ok { rule := { ruleA with id := 10 }, status := Status.active } := by
  refine ⟨?_, ?_, ?_, ?_⟩
  · exact (bodyDecoders_statusPrecondition { rule := some ruleA, status := none } "").1
      ruleA rfl rfl
  · exact (bodyDecoders_statusPrecondition
      { rule := some ruleA, status := some Status.active } "").2.1 ruleA Status.active rfl rfl
  · exact (bodyDecoders_statusPrecondition { rule := some ruleA, status := none }
      "000000000000000a").2.2.1 ruleA 10 rfl rfl rfl
  · exact (bodyDecoders_statusPrecondition
      { rule := some ruleA, status := some Status.active }
      "000000000000000a").2.2.2 ruleA Status.active 10 rfl rfl rfl

/-- C10: the patch and delete handlers never read the authenticated principal
— their outcomes are invariant under it, so no authorization error arises in
this layer — while create and replace, once their body decodes, fail with the
authorization error and make no store call when the principal is missing. -/
theorem authPrincipal_usage (req : Request) (env : Env) :
    (∀ a : Option ID,
        handlePatchNotificationRule { req with auth := a } env
          = handlePatchNotificationRule req env)
    ∧ (∀ a : Option ID,
        handleDeleteNotificationRule { req with auth := a } env
          = handleDeleteNotificationRule req env)
    ∧ (∀ pnrr : PostNotificationRuleRequest,
        decodePostNotificationRuleRequest req.body = DecodeResult.ok pnrr →
        req.auth = none →
        handlePostNotificationRule req env
          = ⟨HResult.failure unauthorizedErr, false⟩)
    ∧ (∀ nrc : NotificationRuleCreate,
        decodePutNotificationRuleRequest req.body req.pathID = DecodeResult.ok nrc →
        req.auth = none →
        handlePutNotificationRule req env
          = ⟨HResult.failure unauthorizedErr, false⟩) := by
  refine ⟨?_, ?_, ?_, ?_⟩
  · intro a
    cases req
    rfl
  · intro a
    cases req
    rfl
  · intro pnrr h1 h2
    simp only [handlePostNotificationRule, h1, h2]
  · intro nrc h1 h2
    simp only [handlePutNotificationRule, h1, h2]

/-- C10 witness: a patch outcome is unchanged by the principal, and create and
replace with a decodable body but no principal fail with the authorization
error without a store call. -/
theorem authPrincipal_usage_witness :
    handlePatchNotificationRule { reqPatch0 with auth := some 9 } envA
      = handlePatchNotificationRule reqPatch0 envA
    ∧ handlePostNotificationRule reqPostNoAuth envA
        = ⟨HResult.failure unauthorizedErr, false⟩
    ∧ handlePutNotificationRule reqPutNoAuth envA
        = ⟨HResult.failure unauthorizedErr, false⟩ := by
  refine ⟨(authPrincipal_usage reqPatch0 envA).1 (some 9), ?_, ?_⟩
  · exact (authPrincipal_usage reqPostNoAuth envA).2.2.1 pnrr0 rfl rfl
  · exact (authPrincipal_usage reqPutNoAuth envA).2.2.2 nrcPut0 rfl rfl

end InfluxdbHttp
